import Mathlib

/-!
Shallow embedding of the numerical core of the concrete mix design
application (Faury-Joisel design, Shilstone workability, Power-45 grading
math, aggregate-proportion optimizer), together with theorems checking the
natural-language specification against it.

Python floats are idealized as exact rationals (`ℚ`); the transcendental
`** 0.45` power in the Power-45 module is idealized over the reals with
`Real.rpow`.  Python's `round` (banker's rounding, half to even) is
modelled explicitly by `pyRoundInt` / `pyRoundN`.  A Python
`ZeroDivisionError` is modelled by the `Except String` error channel via
`pydiv`.
-/

/-- Python `round(q)`: nearest integer, ties go to the even integer. -/
def pyRoundInt (q : ℚ) : ℤ :=
  let f : ℤ := ⌊q⌋
  let r : ℚ := q - f
  if r < 1/2 then f
  else if 1/2 < r then f + 1
  else if 2 ∣ f then f else f + 1

/-- Python `round(q, n)`: round to `n` decimal digits, ties to even. -/
def pyRoundN (q : ℚ) (n : ℕ) : ℚ :=
  (pyRoundInt (q * 10 ^ n) : ℚ) / 10 ^ n

/-- Python float division `a / b`: raises `ZeroDivisionError` when `b = 0`. -/
def pydiv (a b : ℚ) : Except String ℚ :=
  if b = 0 then Except.error "ZeroDivisionError: float division by zero"
  else Except.ok (a / b)

namespace Config

/-- Source `config/config.py`: `TAMICES_MM`, the sieve list used by the
Faury-Joisel engine (12 values). -/
def TAMICES_MM : List ℚ := [40, 25, 20, 12.5, 10, 5, 2.36, 1.18, 0.6, 0.315, 0.16, 0.08]

/-- Source `config/config.py`: `TAMICES_ASTM`, ASTM names aligned with `TAMICES_MM`. -/
def TAMICES_ASTM : List String :=
  ["1½\"", "1\"", "¾\"", "½\"", "⅜\"", "Nº4", "Nº8", "Nº16", "Nº30", "Nº50", "Nº100", "Nº200"]

/-- Source `config/config.py`: `TAMICES_POWER45` (13 values). -/
def TAMICES_POWER45 : List ℚ :=
  [50, 37.5, 25, 19, 12.5, 9.5, 4.75, 2.36, 1.18, 0.6, 0.3, 0.15, 0.075]

/-- Source `config/config.py`: `TOLERANCIAS_BANDA`, working-band tolerance by sieve name. -/
def TOLERANCIAS_BANDA : List (String × ℚ) :=
  [("1½\"", 4), ("1\"", 4), ("¾\"", 4), ("½\"", 4), ("⅜\"", 4), ("Nº4", 4),
   ("Nº8", 4), ("Nº16", 4), ("Nº30", 4), ("Nº50", 3), ("Nº100", 2), ("Nº200", 3)]

/-- Source `config/config.py`: `REQUISITOS_DURABILIDAD`, exposure class ↦
(max w/c ratio, minimum cement). -/
def REQUISITOS_DURABILIDAD : List (String × ℚ × ℚ) :=
  [("Sin riesgo", (1.0, 250)),
   ("Baja permeabilidad / Corrosión moderada", (0.50, 300)),
   ("Corrosión severa / Cloruros", (0.40, 330)),
   ("Sulfatos moderados", (0.50, 300)),
   ("Sulfatos severos", (0.45, 330)),
   ("Congelamiento y deshielo", (0.45, 300))]

end Config

namespace Power45

/-- Source `power45.py`: `TAMICES_POWER45`, the module's own copy of the default
Power-45 sieve list. -/
def TAMICES_POWER45 : List ℝ :=
  [50, 37.5, 25, 19, 12.5, 9.5, 4.75, 2.36, 1.18, 0.6, 0.3, 0.15, 0.075]

/-- Source `power45.py`: `calcular_valor_power45`; `tamiz ** 0.45`, and `0.0` for
non-positive sieves. -/
noncomputable def calcular_valor_power45 (tamiz_mm : ℝ) : ℝ :=
  if tamiz_mm ≤ 0 then 0 else tamiz_mm ^ (0.45 : ℝ)

open Classical in
/-- Source `power45.py`: `generar_curva_ideal_power45`.  Returns the sieve list and
the ideal percent-passing values.  `none` for `tamices` selects the default
list, as the Python `None` default does. -/
noncomputable def generar_curva_ideal_power45 (tmn : ℝ) (tamices : Option (List ℝ)) :
    List ℝ × List ℝ :=
  let ts := tamices.getD TAMICES_POWER45
  let max_valor := calcular_valor_power45 tmn
  -- `tamices[-1] if tamices else 0.075`: last element when the list is nonempty
  let min_valor := match ts.getLast? with
    | some t => calcular_valor_power45 t
    | none => calcular_valor_power45 0.075
  let ideales := ts.map (fun t =>
    if t ≥ tmn then 100
    else if max_valor - min_valor > 0 then
      max 0 (min 100 ((calcular_valor_power45 t - min_valor) / (max_valor - min_valor) * 100))
    else 50)
  (ts, ideales)

/-- Source `power45.py`: `calcular_retenido`, percent retained from percent passing,
clamped at 0.  The auxiliary recursion carries the previous passing value,
starting from 100 for the first sieve. -/
def calcular_retenido_aux (prev : ℚ) : List ℚ → List ℚ
  | [] => []
  | p :: ps => max 0 (prev - p) :: calcular_retenido_aux p ps

/-- Source `power45.py`: `calcular_retenido` (`ret[0] = 100 - pasa[0]`,
`ret[i] = pasa[i-1] - pasa[i]`, each `max(0, ·)`). -/
def calcular_retenido (pasa : List ℚ) : List ℚ :=
  calcular_retenido_aux 100 pasa

/-- The contribution of one component to sieve `i` in the blend loop of
`calcular_mezcla_granulometrica`: `frac * granulometria[j][i]`, or 0 when
the source's bounds guard `i < len(granulometrias[j])` fails. -/
def aporte (i : ℕ) (frac : ℚ) (g : List ℚ) : ℚ :=
  match g.get? i with
  | some v => frac * v
  | none => 0

/-- Source `power45.py`: `calcular_mezcla_granulometrica`.  Proportions with
positive sum are normalized; a non-positive sum falls back to equal
fractions `1/len`.  The source loop pairs fraction `j` with gradation `j`
and its bounds guards skip any index out of range, which the truncating
zip and `aporte` reproduce. -/
def calcular_mezcla_granulometrica (proporciones : List ℚ)
    (granulometrias : List (List ℚ)) : List ℚ :=
  if proporciones = [] ∨ granulometrias = [] then []
  else
    let total_prop := proporciones.sum
    let fracciones :=
      if 0 < total_prop then proporciones.map (fun p => p / total_prop)
      else List.replicate proporciones.length (1 / (proporciones.length : ℚ))
    let num_tamices := (granulometrias.head?.map List.length).getD 0
    (List.range num_tamices).map (fun i =>
      pyRoundN ((fracciones.zip granulometrias).map (fun fg =>
        aporte i fg.1 fg.2)).sum 2)

/-- Source `power45.py`: `calcular_error_power45` (sum of squares or of absolute
differences over paired sieves, truncating to the shorter list). -/
def calcular_error_power45 (mezcla_pct ideal_pct : List ℚ) (metodo : String) : ℚ :=
  let n := min mezcla_pct.length ideal_pct.length
  let ms := mezcla_pct.take n
  let is' := ideal_pct.take n
  let e := if metodo = "cuadratico" then
      ((ms.zip is').map (fun p => (p.1 - p.2) ^ 2)).sum
    else ((ms.zip is').map (fun p => |p.1 - p.2|)).sum
  pyRoundN e 4

end Power45

namespace Shilstone

/-- Source `shilstone.py`: `calcular_CF`.  `Q = 100 - pasa_3_8`,
`I = pasa_3_8 - pasa_8`; returns 0 when `Q + I ≤ 0`, else
`Q / (Q + I) * 100` rounded to 2 decimals. -/
def calcular_CF (pasa_3_8 pasa_8 : ℚ) : ℚ :=
  let Q := 100 - pasa_3_8
  let I := pasa_3_8 - pasa_8
  if Q + I ≤ 0 then 0
  else pyRoundN (Q / (Q + I) * 100) 2

/-- Source `shilstone.py`: `calcular_W`. -/
def calcular_W (pasa_8 : ℚ) : ℚ := pyRoundN pasa_8 2

/-- Source `shilstone.py`: `calcular_ajuste`; `0.0588 * cemento - 19.647`, rounded. -/
def calcular_ajuste (cemento : ℚ) : ℚ :=
  pyRoundN (0.0588 * cemento - 19.647) 2

/-- Source `shilstone.py`: `calcular_Wadj`. -/
def calcular_Wadj (W adj : ℚ) : ℚ := pyRoundN (W + adj) 2

/-- Source `shilstone.py`: `evaluar_zona_shilstone`, reduced to the pair
(zone name, quality) that the branch structure assigns.  The `Wadj`
branches in the non-optimal case overwrite the zone chosen by the `CF`
branches, exactly as the sequential assignments in the source do. -/
def evaluar_zona_shilstone (CF Wadj : ℚ) : String × String :=
  let en_zona_optima := 45 ≤ CF ∧ CF ≤ 75 ∧ 27 ≤ Wadj ∧ Wadj ≤ 45
  let wadj_linea_sup := -0.138 * CF + 49.8
  let wadj_linea_inf := -0.1 * CF + 37
  if en_zona_optima then
    if Wadj ≤ wadj_linea_sup ∧ Wadj ≥ wadj_linea_inf then
      ("Zona I - Óptima", "Óptima")
    else
      ("Zona de transición", "Aceptable")
  else
    let zc : String × String :=
      if CF > 75 then ("Zona Rocky", "Deficiente")
      else if CF < 45 then ("Zona Arenosa", "Deficiente")
      else ("", "")
    if Wadj > 45 then ("Zona Sobrediseñada", "Deficiente")
    else if Wadj < 27 then ("Zona de Baja Trabajabilidad", "Deficiente")
    else zc

end Shilstone

namespace Optimizacion

/-- Source `optimization.py`: `HAYSTACK_LIMITS`, indexed (min, max) passing bands;
`none` encodes Python's `None`. -/
def HAYSTACK_LIMITS : List (Option ℚ × Option ℚ) :=
  [(some 100, some 100), (some 95, some 100), (none, none), (none, none),
   (none, none), (none, none), (none, none), (none, none),
   (some 50, some 85), (some 25, some 60), (some 10, some 30),
   (some 2, some 10), (some 0, some 5)]

/-- Source `optimization.py`: `TARANTULA_LIMITS`, indexed (max, min) retained bands. -/
def TARANTULA_LIMITS : List (ℚ × ℚ) :=
  [(0, 0), (16, 0), (20, 0), (20, 0), (20, 4), (20, 4), (20, 4),
   (12, 0), (12, 0), (20, 4), (20, 4), (10, 0), (5, 0)]

/-- Source `optimization.py`: `calcular_penalizacion_haystack`. -/
def calcular_penalizacion_haystack (mezcla_pct : List ℚ) : ℚ :=
  (mezcla_pct.enum.map (fun iv =>
    match HAYSTACK_LIMITS.get? iv.1 with
    | some lims =>
      (match lims.1 with
       | some min_lim => if iv.2 < min_lim then (min_lim - iv.2) ^ 2 else 0
       | none => 0) +
      (match lims.2 with
       | some max_lim => if iv.2 > max_lim then (iv.2 - max_lim) ^ 2 else 0
       | none => 0)
    | none => 0)).sum

/-- Source `optimization.py`: `calcular_penalizacion_tarantula`. -/
def calcular_penalizacion_tarantula (mezcla_pct : List ℚ) : ℚ :=
  let retenido := Power45.calcular_retenido mezcla_pct
  (retenido.enum.map (fun ir =>
    match TARANTULA_LIMITS.get? ir.1 with
    | some lims =>
      (if ir.2 > lims.1 then (ir.2 - lims.1) ^ 2 else 0) +
      (if ir.2 < lims.2 then (lims.2 - ir.2) ^ 2 else 0)
    | none => 0)).sum

/-- Source `optimization.py`: `calcular_penalizacion_shilstone` with the fixed
limits `fraccion_fina ∈ [24, 34]` and `fraccion_gruesa ≥ 15`. -/
def calcular_penalizacion_shilstone (mezcla_pct : List ℚ) : ℚ :=
  let retenido := Power45.calcular_retenido mezcla_pct
  let fraccion_fina :=
    if retenido.length > 12 then ((retenido.take 13).drop 9).sum
    else if retenido.length > 9 then (retenido.drop 9).sum
    else 0
  let p1 := if fraccion_fina < 24 then (24 - fraccion_fina) ^ 2 else 0
  let p2 := if fraccion_fina > 34 then (fraccion_fina - 34) ^ 2 else 0
  let fraccion_gruesa :=
    if retenido.length > 9 then ((retenido.take 9).drop 3).sum else 0
  let p3 := if fraccion_gruesa < 15 then (15 - fraccion_gruesa) ^ 2 else 0
  p1 + p2 + p3

/-- Source `optimization.py`: `calcular_mezcla_volumetrica`.  The `densidades`
argument is accepted but never read in the body: the result is
`Σ_j (proporciones[j] / 100) * granulometrias[j][i]`. -/
def calcular_mezcla_volumetrica (proporciones : List ℚ)
    (granulometrias : List (List ℚ)) (densidades : Option (List ℚ)) : List ℚ :=
  let n_tamices := (granulometrias.head?.map List.length).getD 0
  (List.range n_tamices).map (fun i =>
    (proporciones.enum.map (fun jp =>
      jp.2 / 100 * ((granulometrias.getD jp.1 []).getD i 0))).sum)

/-- Source `optimization.py`: `funcion_objetivo`.  A Python truthiness test
(`if densidades:`) selects the "volumetric" blend when a nonempty density
list is supplied, and the plain normalized blend otherwise. -/
def funcion_objetivo (x : List ℚ) (granulometrias : List (List ℚ))
    (ideal_power45 : List ℚ) (densidades : Option (List ℚ))
    (peso_haystack peso_tarantula peso_shilstone : ℚ) : ℚ :=
  let proporciones := x
  let mezcla := match densidades with
    | some d =>
      if d ≠ [] then calcular_mezcla_volumetrica proporciones granulometrias (some d)
      else Power45.calcular_mezcla_granulometrica proporciones granulometrias
    | none => Power45.calcular_mezcla_granulometrica proporciones granulometrias
  if mezcla = [] then 10 ^ 10
  else
    let n := min mezcla.length ideal_power45.length
    let mezcla' := if mezcla.length ≠ ideal_power45.length then mezcla.take n else mezcla
    let ideal := if mezcla.length ≠ ideal_power45.length then ideal_power45.take n
      else ideal_power45
    let error_p45 := Power45.calcular_error_power45 mezcla' ideal "cuadratico"
    error_p45 +
      peso_haystack * calcular_penalizacion_haystack mezcla' +
      peso_tarantula * calcular_penalizacion_tarantula mezcla' +
      peso_shilstone * calcular_penalizacion_shilstone mezcla'

/-- Modelled from the spec: the volume-weighted blend that §4.4 ("Optional
volumetric correction: when component densities are supplied, blend using
volume-weighted (not mass-weighted) combination") prescribes but the source
does not implement — component `j` is weighted by `proportion_j / density_j`
normalized over all components. -/
def mezcla_volumetrica_spec (proporciones : List ℚ)
    (granulometrias : List (List ℚ)) (densidades : List ℚ) : List ℚ :=
  let vols := (proporciones.zip densidades).map (fun pd => pd.1 / pd.2)
  let total := vols.sum
  let n_tamices := (granulometrias.head?.map List.length).getD 0
  (List.range n_tamices).map (fun i =>
    ((vols.zip granulometrias).map (fun vg => vg.1 / total * vg.2.getD i 0)).sum)

end Optimizacion

namespace FauryJoisel

/-- One aggregate record as consumed by `disenar_mezcla_faury`
(name, dry density `DRS`, absorption fraction, percent-passing gradation). -/
structure Arido where
  nombre : String
  DRS : ℚ
  absorcion : ℚ
  granulometria : List ℚ
deriving DecidableEq

/-- One admixture configuration record (name, dose as % of cement mass,
density in kg/lt). -/
structure AditivoConfig where
  nombre : String
  dosis_pct : ℚ
  densidad_kg_lt : ℚ
deriving DecidableEq

/-- One admixture result record, as assembled in `aditivos_res`. -/
structure AditivoRes where
  nombre : String
  cantidad_kg : ℚ
  volumen_lt : ℚ
  dosis_pct : ℚ
deriving DecidableEq

/-- The `referencias` sub-dictionary (advisory durability references). -/
structure Referencias where
  min_cemento_norma : ℚ
  max_ac_norma : ℚ
  cumple_cemento : Bool
  cumple_ac : Bool
deriving DecidableEq

/-- The dictionary returned by `disenar_mezcla_faury`, one field per key;
string-keyed sub-dictionaries are association lists in insertion order. -/
structure MixResult where
  fd_mpa : ℚ
  fd_kgcm2 : ℚ
  coef_t : ℚ
  cemento_cantidad : ℚ
  cemento_densidad : ℚ
  ac_razon : ℚ
  agua_amasado : ℚ
  agua_absorcion : ℚ
  agua_total : ℚ
  aire_volumen : ℚ
  aire_porcentaje : ℚ
  compacidad : ℚ
  proporciones_volumetricas : List (String × ℚ)
  cantidades_kg_m3 : List (String × ℚ)
  proporciones_peso : List (String × ℚ)
  granulometria_mezcla : List ℚ
  banda_trabajo : List (ℚ × ℚ)
  aditivos : List AditivoRes
  volumen_aditivos : ℚ
  referencias_durabilidad : Referencias
deriving DecidableEq

/-- Source `faury_joisel.py`: `obtener_coeficiente_t`.  Linear interpolation over
`TABLA_COEF_T` (0.05 ↦ 1.645, 0.10 ↦ 1.282, 0.15 ↦ 1.036, 0.20 ↦ 0.842);
the loop takes the first bracketing interval, which the nested conditionals
reproduce.  The source's final `return 1.282` fallback is unreachable. -/
def obtener_coeficiente_t (fraccion_defectuosa : ℚ) : ℚ :=
  if fraccion_defectuosa ≤ 0.05 then 1.645
  else if fraccion_defectuosa ≥ 0.20 then 0.842
  else if fraccion_defectuosa ≤ 0.10 then
    1.645 + (fraccion_defectuosa - 0.05) / (0.10 - 0.05) * (1.282 - 1.645)
  else if fraccion_defectuosa ≤ 0.15 then
    1.282 + (fraccion_defectuosa - 0.10) / (0.15 - 0.10) * (1.036 - 1.282)
  else
    1.036 + (fraccion_defectuosa - 0.15) / (0.20 - 0.15) * (0.842 - 1.036)

/-- Source `faury_joisel.py`: `calcular_resistencia_media`; returns
`(fd in MPa, fd in kg/cm² rounded to a multiple of 5)`. -/
def calcular_resistencia_media (fc s fraccion_def : ℚ) : ℚ × ℚ :=
  let t := obtener_coeficiente_t fraccion_def
  let fd_mpa := fc + s * t
  (fd_mpa, (pyRoundInt (fd_mpa * 10.2 / 5) : ℚ) * 5)

/-- Source `faury_joisel.py`: `calcular_cemento`;
`round(fd * factor_eficiencia / 5) * 5`, no durability minimum applied. -/
def calcular_cemento (fd_kgcm2 factor_eficiencia : ℚ) : ℚ :=
  (pyRoundInt (fd_kgcm2 * factor_eficiencia / 5) : ℚ) * 5

/-- Source `faury_joisel.py`: `obtener_razon_ac`.  Linear interpolation over
`TABLA_AC` (200 ↦ 0.65 … 550 ↦ 0.34), first bracketing interval. -/
def obtener_razon_ac (fd_kgcm2 : ℚ) : ℚ :=
  if fd_kgcm2 ≤ 200 then 0.65
  else if fd_kgcm2 ≥ 550 then 0.34
  else if fd_kgcm2 ≤ 250 then 0.65 + (fd_kgcm2 - 200) / 50 * (0.60 - 0.65)
  else if fd_kgcm2 ≤ 300 then 0.60 + (fd_kgcm2 - 250) / 50 * (0.52 - 0.60)
  else if fd_kgcm2 ≤ 350 then 0.52 + (fd_kgcm2 - 300) / 50 * (0.47 - 0.52)
  else if fd_kgcm2 ≤ 400 then 0.47 + (fd_kgcm2 - 350) / 50 * (0.43 - 0.47)
  else if fd_kgcm2 ≤ 450 then 0.43 + (fd_kgcm2 - 400) / 50 * (0.40 - 0.43)
  else if fd_kgcm2 ≤ 500 then 0.40 + (fd_kgcm2 - 450) / 50 * (0.37 - 0.40)
  else 0.37 + (fd_kgcm2 - 500) / 50 * (0.34 - 0.37)

/-- Source `faury_joisel.py`: `obtener_aire_ocluido`.  Linear interpolation over
`TABLA_AIRE` (10 ↦ 50, 12.5 ↦ 45, 20 ↦ 40, 25 ↦ 35, 40 ↦ 25, 50 ↦ 20),
plus incorporated air converted from percent to liters. -/
def obtener_aire_ocluido (dn_mm aire_incorporado : ℚ) : ℚ :=
  let aire_base :=
    if dn_mm ≤ 10 then 50
    else if dn_mm ≥ 50 then 20
    else if dn_mm ≤ 12.5 then 50 + (dn_mm - 10) / (12.5 - 10) * (45 - 50)
    else if dn_mm ≤ 20 then 45 + (dn_mm - 12.5) / (20 - 12.5) * (40 - 45)
    else if dn_mm ≤ 25 then 40 + (dn_mm - 20) / (25 - 20) * (35 - 40)
    else if dn_mm ≤ 40 then 35 + (dn_mm - 25) / (40 - 25) * (25 - 35)
    else 25 + (dn_mm - 40) / (50 - 40) * (20 - 25)
  aire_base + aire_incorporado * 10

/-- Source `faury_joisel.py`: `calcular_proporciones_faury`.  The `M`/`N` lookup of
the source is dead (read but unused); the coarse fraction comes from the
hardcoded nominal-size constants, adjusted by consistency. -/
def calcular_proporciones_faury (dn_mm : ℚ) (consistencia : String)
    (c_vol : ℚ) (num_aridos : ℕ) : List (String × ℚ) :=
  let i_gruesos_base : ℚ :=
    if dn_mm = 25 then 0.44
    else if dn_mm = 40 then 0.48
    else if dn_mm = 20 then 0.42
    else 0.43
  let i_gruesos :=
    if consistencia = "Seca" then i_gruesos_base + 0.02
    else if consistencia = "Fluida" then i_gruesos_base - 0.03
    else i_gruesos_base
  let f_c := 1 - i_gruesos
  let f := f_c - c_vol
  if num_aridos = 2 then
    [("grueso", i_gruesos), ("fino", f), ("cemento", c_vol)]
  else
    [("grueso_1", i_gruesos * 0.55), ("grueso_2", i_gruesos * 0.45),
     ("fino", f), ("cemento", c_vol)]

/-- Source `faury_joisel.py`: `calcular_cantidades_kg`; one entry per material of
`proporciones` that is present in `densidades` and is not the cement. -/
def calcular_cantidades_kg (proporciones : List (String × ℚ)) (compacidad : ℚ)
    (densidades : List (String × ℚ)) : List (String × ℚ) :=
  proporciones.filterMap (fun kp =>
    if kp.1 ≠ "cemento" then
      (densidades.lookup kp.1).map (fun d => (kp.1, kp.2 * compacidad * d))
    else none)

/-- Source `faury_joisel.py`: `calcular_agua_absorcion`. -/
def calcular_agua_absorcion (cantidades : List (String × ℚ))
    (absorciones : List (String × ℚ)) : ℚ :=
  (cantidades.map (fun kc =>
    match absorciones.lookup kc.1 with
    | some a => kc.2 * a
    | none => 0)).sum

/-- Source `faury_joisel.py`: `calcular_agua_total`. -/
def calcular_agua_total (agua_amasado agua_absorcion : ℚ) : ℚ :=
  agua_amasado + agua_absorcion

/-- Source `faury_joisel.py`: `calcular_proporciones_peso`; total-zero inputs map
every entry to 0 instead of dividing. -/
def calcular_proporciones_peso (cantidades : List (String × ℚ)) : List (String × ℚ) :=
  let total := (cantidades.map Prod.snd).sum
  if total = 0 then cantidades.map (fun kv => (kv.1, (0 : ℚ)))
  else cantidades.map (fun kv => (kv.1, kv.2 / total))

/-- Source `faury_joisel.py`: `calcular_granulometria_mezcla`; one value per sieve
of `Config.TAMICES_MM` (12 sieves).  A gradation entry too short for an
index reads as 0 here (the source would raise `IndexError`; engine inputs
carry 12 values). -/
def calcular_granulometria_mezcla (proporciones_peso : List (String × ℚ))
    (granulometrias : List (String × List ℚ)) : List ℚ :=
  (List.range Config.TAMICES_MM.length).map (fun i =>
    ((proporciones_peso.map (fun mp =>
      match granulometrias.lookup mp.1 with
      | some g => mp.2 * g.getD i 0 / 100
      | none => 0)).sum) * 100)

/-- Source `faury_joisel.py`: `calcular_banda_trabajo`; per ASTM sieve name,
`(max(0, mezcla[i] - tol), min(100, mezcla[i] + tol))` with tolerance
defaulting to 3. -/
def calcular_banda_trabajo (mezcla : List ℚ) : List (ℚ × ℚ) :=
  Config.TAMICES_ASTM.enum.map (fun it =>
    let tol := (Config.TOLERANCIAS_BANDA.lookup it.2).getD 3
    (max 0 (mezcla.getD it.1 0 - tol), min 100 (mezcla.getD it.1 0 + tol)))

/-- Dictionary insert with Python semantics: an existing key is updated in
place, a new key is appended. -/
def dinsert {α : Type} (d : List (String × α)) (k : String) (v : α) :
    List (String × α) :=
  if (d.lookup k).isSome then
    d.map (fun kv => if kv.1 = k then (k, v) else kv)
  else d ++ [(k, v)]

/-- The key each aggregate index receives in step 9 of
`disenar_mezcla_faury` ('grueso'/'fino' for two aggregates,
'grueso_1'/'grueso_2'/'fino' otherwise). -/
def keyArido (num_aridos i : ℕ) : String :=
  if num_aridos = 2 then (if i = 0 then "grueso" else "fino")
  else if i = 0 then "grueso_1"
  else if i = 1 then "grueso_2"
  else "fino"

/-- Step 9 of `disenar_mezcla_faury`: build one of the per-key dictionaries
from the aggregate list. -/
def dictAridos (num_aridos : ℕ) (aridos : List Arido) (f : Arido → ℚ) :
    List (String × ℚ) :=
  aridos.enum.foldl (fun d ia => dinsert d (keyArido num_aridos ia.1) (f ia.2)) []

/-- Step 9 of `disenar_mezcla_faury`, gradation dictionary. -/
def dictGranulometrias (num_aridos : ℕ) (aridos : List Arido) :
    List (String × List ℚ) :=
  aridos.enum.foldl
    (fun d ia => dinsert d (keyArido num_aridos ia.1) ia.2.granulometria) []

/-- The admixture loop of `disenar_mezcla_faury`: builds `aditivos_res`
(with quantities rounded to 3 decimals) and accumulates the unrounded
total admixture volume; division by a zero density raises. -/
def procesar_aditivos (cemento : ℚ) : List AditivoConfig →
    Except String (List AditivoRes × ℚ)
  | [] => Except.ok ([], 0)
  | ad :: rest => do
    let peso_ad := cemento * (ad.dosis_pct / 100)
    let vol_ad ← pydiv peso_ad ad.densidad_kg_lt
    let tail ← procesar_aditivos cemento rest
    Except.ok ({ nombre := ad.nombre, cantidad_kg := pyRoundN peso_ad 3,
                 volumen_lt := pyRoundN vol_ad 3, dosis_pct := ad.dosis_pct } :: tail.1,
               vol_ad + tail.2)

/-- The key-renaming map of `disenar_mezcla_faury` (internal keys to real
aggregate names, only defined for 2 or 3 aggregates). -/
def nombresReales (aridos : List Arido) : List (String × String) :=
  match aridos with
  | [a, b] => [("grueso", a.nombre), ("fino", b.nombre)]
  | [a, b, c] => [("grueso_1", a.nombre), ("grueso_2", b.nombre), ("fino", c.nombre)]
  | _ => []

/-- Rename the keys of a result dictionary and round its values. -/
def renombrar (nombres : List (String × String)) (d : List (String × ℚ))
    (digits : ℕ) : List (String × ℚ) :=
  d.map (fun kv => ((nombres.lookup kv.1).getD kv.1, pyRoundN kv.2 digits))

/-- Source `faury_joisel.py`: `disenar_mezcla_faury`, the full design pipeline.
Optional Python arguments are `Option`s (`aditivos_config`: the `None` and
`[]` cases behave identically in the source, so a plain list is used).
Divisions whose denominator the source does not guard go through `pydiv`,
so a zero denominator surfaces as the Python `ZeroDivisionError` would. -/
def disenar_mezcla_faury (resistencia_fc desviacion_std fraccion_def : ℚ)
    (consistencia : String) (tmn densidad_cemento : ℚ) (aridos : List Arido)
    (aire_porcentaje : ℚ) (condicion_exposicion : String)
    (aditivos_config : List AditivoConfig)
    (proporciones_personalizadas : Option (List ℚ))
    (manual_ac manual_aire_litros : Option ℚ) : Except String MixResult := do
  -- 0. Durability requirements (lookup miss falls back to "Sin riesgo")
  let req := (Config.REQUISITOS_DURABILIDAD.lookup condicion_exposicion).getD (1, 250)
  let max_ac_durabilidad := req.1
  let min_cemento_durabilidad := req.2
  -- 1. Mean strength
  let fd := calcular_resistencia_media resistencia_fc desviacion_std fraccion_def
  let fd_mpa := fd.1
  let fd_kgcm2 := fd.2
  -- 1. Cement (no normative minimum applied)
  let factor_eficiencia : ℚ := 0.95
  let cemento := calcular_cemento fd_kgcm2 factor_eficiencia
  -- 2. w/c ratio: manual override wins when positive
  let razon_ac := match manual_ac with
    | some v => if 0 < v then v else obtener_razon_ac fd_kgcm2
    | none => obtener_razon_ac fd_kgcm2
  -- 3. Mixing water
  let agua_amasado := cemento * razon_ac
  -- 4. Air: manual liters win unconditionally; else percent; else table
  let aire_lt := match manual_aire_litros with
    | some v => v
    | none =>
      if 0 < aire_porcentaje then aire_porcentaje * 10
      else obtener_aire_ocluido tmn 0
  -- Admixtures
  let adRes ← procesar_aditivos cemento aditivos_config
  let aditivos_res := adRes.1
  let volumen_aditivos_lt := adRes.2
  -- 5. Volumes; the first quotient is computed (and can raise) but unused
  let _vol_cemento ← pydiv cemento (densidad_cemento / 1000)
  let vcl ← pydiv cemento densidad_cemento
  let vol_cemento_lt := vcl * 1000
  let vol_agua_lt := agua_amasado
  let vol_aire_lt := aire_lt
  let vol_aridos_aparente_lt :=
    1000 - vol_cemento_lt - vol_agua_lt - vol_aire_lt - volumen_aditivos_lt
  let compacidad := (vol_cemento_lt + vol_aridos_aparente_lt) / 1000
  let c_vol ← pydiv vol_cemento_lt (compacidad * 1000)
  -- Durability references (informative only)
  let referencias : Referencias :=
    { min_cemento_norma := min_cemento_durabilidad
      max_ac_norma := max_ac_durabilidad
      cumple_cemento := decide (cemento ≥ min_cemento_durabilidad)
      cumple_ac := decide (razon_ac ≤ max_ac_durabilidad) }
  -- 8. Volumetric proportions, with the custom-proportions override
  let num_aridos := aridos.length
  let proporciones_vol ← (match proporciones_personalizadas with
    | some pp =>
      if pp.length ≠ 0 ∧ pp.length = num_aridos then
        let total_p := pp.sum
        -- the list is nonempty here, so the Python comprehension evaluates
        -- at least one division by `total_p`
        if total_p = 0 then
          Except.error "ZeroDivisionError: float division by zero"
        else
          let props_norm := pp.map (fun p => p / total_p)
          let vol_aridos_total := 1 - c_vol
          if num_aridos = 2 then
            Except.ok [("grueso", vol_aridos_total * props_norm.getD 0 0),
                       ("fino", vol_aridos_total * props_norm.getD 1 0),
                       ("cemento", c_vol)]
          else if num_aridos = 3 then
            Except.ok [("grueso_1", vol_aridos_total * props_norm.getD 0 0),
                       ("grueso_2", vol_aridos_total * props_norm.getD 1 0),
                       ("fino", vol_aridos_total * props_norm.getD 2 0),
                       ("cemento", c_vol)]
          else Except.ok [("cemento", c_vol)]
      else Except.ok (calcular_proporciones_faury tmn consistencia c_vol num_aridos)
    | none => Except.ok (calcular_proporciones_faury tmn consistencia c_vol num_aridos))
  -- 9. Per-key aggregate property dictionaries
  let densidades := dictAridos num_aridos aridos (fun a => a.DRS)
  let absorciones := dictAridos num_aridos aridos (fun a => a.absorcion)
  let granulometrias := dictGranulometrias num_aridos aridos
  -- 10.-15. Quantities, water, blend, working band
  let cantidades := calcular_cantidades_kg proporciones_vol compacidad densidades
  let agua_absorcion := calcular_agua_absorcion cantidades absorciones
  let agua_total := calcular_agua_total agua_amasado agua_absorcion
  let proporciones_peso := calcular_proporciones_peso cantidades
  let mezcla_granulometria := calcular_granulometria_mezcla proporciones_peso granulometrias
  let banda_trabajo := calcular_banda_trabajo mezcla_granulometria
  -- Final assembly with key renaming and display rounding
  let nombres_reales := nombresReales aridos
  Except.ok
    { fd_mpa := pyRoundN fd_mpa 2
      fd_kgcm2 := fd_kgcm2
      coef_t := obtener_coeficiente_t fraccion_def
      cemento_cantidad := cemento
      cemento_densidad := densidad_cemento
      ac_razon := pyRoundN razon_ac 3
      agua_amasado := pyRoundN agua_amasado 1
      agua_absorcion := pyRoundN agua_absorcion 1
      agua_total := pyRoundN agua_total 1
      aire_volumen := pyRoundN aire_lt 1
      aire_porcentaje := pyRoundN (aire_lt / 10) 1
      compacidad := pyRoundN compacidad 4
      proporciones_volumetricas := renombrar nombres_reales proporciones_vol 4
      cantidades_kg_m3 := renombrar nombres_reales cantidades 1
      proporciones_peso := renombrar nombres_reales proporciones_peso 4
      granulometria_mezcla := mezcla_granulometria.map (fun v => pyRoundN v 1)
      banda_trabajo := banda_trabajo.map (fun p => (pyRoundN p.1 1, pyRoundN p.2 1))
      aditivos := aditivos_res
      volumen_aditivos := pyRoundN volumen_aditivos_lt 2
      referencias_durabilidad := referencias }

/-- Erase the `referencias_durabilidad` field (replace it by a fixed dummy),
to compare design results up to the advisory durability references. -/
def stripRef (r : MixResult) : MixResult :=
  { r with referencias_durabilidad := ⟨0, 0, false, false⟩ }

end FauryJoisel

namespace Power45

/-- Scenario E's inverse operation, in the spec's words: reconstruct a
passing curve from a retained curve by cumulative subtraction from 100
(`passing[i] = 100 - sum(retained[0..i])`). -/
def reconstruir_pasa_aux (acc : ℚ) : List ℚ → List ℚ
  | [] => []
  | r :: rs => (acc - r) :: reconstruir_pasa_aux (acc - r) rs

/-- Cumulative subtraction from 100 (see `reconstruir_pasa_aux`). -/
def reconstruir_pasa (retenido : List ℚ) : List ℚ :=
  reconstruir_pasa_aux 100 retenido

end Power45

/-! ## Helper lemmas -/

theorem except_bind_ok {ε α β : Type} (a : α) (f : α → Except ε β) :
    (Except.ok a >>= f) = f a := rfl

theorem except_bind_error {ε α β : Type} (e : ε) (f : α → Except ε β) :
    ((Except.error e : Except ε α) >>= f) = Except.error e := rfl

theorem except_map_ok {ε α β : Type} (g : α → β) (a : α) :
    (Except.ok a : Except ε α).map g = Except.ok (g a) := rfl

theorem except_map_error {ε α β : Type} (g : α → β) (e : ε) :
    (Except.error e : Except ε α).map g = Except.error e := rfl

theorem except_map_bind_congr {α β γ : Type} (g1 g2 : β → γ) (x : Except String α)
    (f1 f2 : α → Except String β) (h : ∀ a, (f1 a).map g1 = (f2 a).map g2) :
    (x >>= f1).map g1 = (x >>= f2).map g2 := by
  cases x with
  | error e => rfl
  | ok a => exact h a

/-! ## C8: Shilstone zone classification scenarios -/

/-- C8: `evaluar_zona_shilstone` puts (CF 60, Wadj 35) in the Optimal zone,
(90, 35) in the Rocky zone, (30, 35) in the Sandy zone; and the Optimal
test is the slanted-line trapezoid test, not the bounding box: (74, 44)
lies inside the rectangle CF ∈ [45,75], Wadj ∈ [27,45] yet is classified
in the transition zone, not Optimal. -/
theorem shilstone_zonas_escenarios :
    Shilstone.evaluar_zona_shilstone 60 35 = ("Zona I - Óptima", "Óptima") ∧
    Shilstone.evaluar_zona_shilstone 90 35 = ("Zona Rocky", "Deficiente") ∧
    Shilstone.evaluar_zona_shilstone 30 35 = ("Zona Arenosa", "Deficiente") ∧
    ((45:ℚ) ≤ 74 ∧ (74:ℚ) ≤ 75 ∧ (27:ℚ) ≤ 44 ∧ (44:ℚ) ≤ 45) ∧
    Shilstone.evaluar_zona_shilstone 74 44 = ("Zona de transición", "Aceptable") := by
  refine ⟨?_, ?_, ?_, by norm_num, ?_⟩ <;> norm_num [Shilstone.evaluar_zona_shilstone]

/-! ## C7: Coarseness Factor formula -/

/-- C7: `calcular_CF` equals the rounded ratio
`100 * (100 - pass_3_8) / (100 - pass_8)` whenever the denominator
`100 - pass_8` is positive (the code's `Q / (Q + I) * 100` is algebraically
the same, since `Q + I = 100 - pass_8`), and equals 0 otherwise. -/
theorem calcular_CF_formula (pasa_3_8 pasa_8 : ℚ) :
    (0 < 100 - pasa_8 →
      Shilstone.calcular_CF pasa_3_8 pasa_8 =
        pyRoundN (100 * (100 - pasa_3_8) / (100 - pasa_8)) 2) ∧
    (100 - pasa_8 ≤ 0 → Shilstone.calcular_CF pasa_3_8 pasa_8 = 0) := by
  unfold Shilstone.calcular_CF
  constructor
  · intro h
    have hQI : (100 - pasa_3_8) + (pasa_3_8 - pasa_8) = 100 - pasa_8 := by ring
    rw [if_neg (by rw [hQI]; exact not_le.mpr h)]
    congr 1
    rw [hQI]
    ring
  · intro h
    have hQI : (100 - pasa_3_8) + (pasa_3_8 - pasa_8) = 100 - pasa_8 := by ring
    rw [if_pos (by rw [hQI]; exact h)]

/-- Witness for C7 at `pass_3_8 = 60`, `pass_8 = 30`. -/
theorem calcular_CF_formula_witness :
    (0 : ℚ) < 100 - 30 ∧
    Shilstone.calcular_CF 60 30 = pyRoundN (100 * (100 - 60) / (100 - 30)) 2 :=
  ⟨by norm_num, (calcular_CF_formula 60 30).1 (by norm_num)⟩

/-! ## C10: zero-sum custom proportions abort the design -/

set_option maxRecDepth 8000 in
/-- C10: calling `disenar_mezcla_faury` with a custom proportion list of
the right length whose entries sum to 0 reaches the unguarded
normalization `p / total_p` and aborts with a division-by-zero error,
returning no result. -/
theorem disenar_proporciones_suma_cero_divzero :
    FauryJoisel.disenar_mezcla_faury 30 4 0.1 "Blanda" 25 3140
      [⟨"Grava", 2700, 0.01, List.replicate 12 0⟩,
       ⟨"Arena", 2600, 0.02, List.replicate 12 100⟩]
      0 "Sin riesgo" [] (some [0, 0]) none none =
    Except.error "ZeroDivisionError: float division by zero" := by
  have hfd : FauryJoisel.calcular_resistencia_media 30 4 (1/10) = (4391/125, 360) := by
    norm_num [FauryJoisel.calcular_resistencia_media, FauryJoisel.obtener_coeficiente_t,
      pyRoundInt, Int.fract]
  have hcem : FauryJoisel.calcular_cemento 360 (19/20) = 340 := by
    norm_num [FauryJoisel.calcular_cemento, pyRoundInt, Int.fract]
  norm_num [FauryJoisel.disenar_mezcla_faury, hfd, hcem,
    FauryJoisel.obtener_razon_ac, FauryJoisel.obtener_aire_ocluido,
    FauryJoisel.procesar_aditivos, pydiv,
    Config.REQUISITOS_DURABILIDAD, List.lookup,
    except_bind_ok, except_bind_error]

/-! ## C6: the "volumetric" blend ignores the supplied densities -/

/-- C6 (code bug): `calcular_mezcla_volumetrica` never reads its
`densidades` argument — it always returns the plain mass-weighted
combination `Σ_j (proportion_j / 100) * gradation_j[i]`.  On proportions
[50, 50], gradations [[100], [0]] and densities [1, 2] it yields 50,
whereas the volume-weighted blend the spec prescribes
(`mezcla_volumetrica_spec`) yields 200/3; consequently `funcion_objetivo`
computes the same objective for any two nonempty density lists. -/
theorem mezcla_volumetrica_ignora_densidades :
    (∀ (p : List ℚ) (g : List (List ℚ)) (d : Option (List ℚ)),
      Optimizacion.calcular_mezcla_volumetrica p g d =
      Optimizacion.calcular_mezcla_volumetrica p g none) ∧
    Optimizacion.calcular_mezcla_volumetrica [50, 50] [[100], [0]] (some [1, 2]) = [50] ∧
    Optimizacion.mezcla_volumetrica_spec [50, 50] [[100], [0]] [1, 2] = [200/3] ∧
    ((50 : ℚ) ≠ 200 / 3) ∧
    (∀ (x : List ℚ) (g : List (List ℚ)) (ideal : List ℚ) (a a' : ℚ) (d d' : List ℚ)
      (pH pT pS : ℚ),
      Optimizacion.funcion_objetivo x g ideal (some (a :: d)) pH pT pS =
      Optimizacion.funcion_objetivo x g ideal (some (a' :: d')) pH pT pS) := by
  refine ⟨fun p g d => rfl, ?_, ?_, by norm_num, ?_⟩
  · norm_num [Optimizacion.calcular_mezcla_volumetrica, List.range_succ,
      List.enum, List.enumFrom]
  · norm_num [Optimizacion.mezcla_volumetrica_spec, List.range_succ, List.zip,
      List.zipWith]
  · intro x g ideal a a' d d' pH pT pS
    simp [Optimizacion.funcion_objetivo, Optimizacion.calcular_mezcla_volumetrica]

/-! ## C2: the default sieve lists differ between components -/

/-- C2 counterexample: the Faury-Joisel engine does not use the canonical
13-value Power-45 sieve list — its `TAMICES_MM` is a different 12-value
list, and both the blended gradation and the working band it produces have
12 entries, even for 13-point inputs. -/
theorem tamices_mm_no_canonico :
    Config.TAMICES_MM ≠ [50, 37.5, 25, 19, 12.5, 9.5, 4.75, 2.36, 1.18, 0.6, 0.3, 0.15, 0.075] ∧
    (FauryJoisel.calcular_granulometria_mezcla [("grueso", 1)]
      [("grueso", List.replicate 13 (100 : ℚ))]).length = 12 ∧
    (FauryJoisel.calcular_banda_trabajo (List.replicate 13 (50 : ℚ))).length = 12 := by
  refine ⟨by norm_num [Config.TAMICES_MM], ?_, ?_⟩
  · simp [FauryJoisel.calcular_granulometria_mezcla, Config.TAMICES_MM]
  · simp [FauryJoisel.calcular_banda_trabajo, Config.TAMICES_ASTM]

/-- C2 amended: the Power-45 module defaults to the canonical descending
13-value sieve list, but the mix-design engine's blended gradation and
working band are built over the 12-value `TAMICES_MM` list
(40 … 0.08 mm), so positional sieve indexing is *not* consistent between
the Power-45 component and the engine. -/
theorem listas_tamices_por_componente :
    Power45.TAMICES_POWER45 =
      [50, 37.5, 25, 19, 12.5, 9.5, 4.75, 2.36, 1.18, 0.6, 0.3, 0.15, 0.075] ∧
    (∀ tmn : ℝ, (Power45.generar_curva_ideal_power45 tmn none).1 =
      Power45.TAMICES_POWER45) ∧
    Config.TAMICES_POWER45 =
      [50, 37.5, 25, 19, 12.5, 9.5, 4.75, 2.36, 1.18, 0.6, 0.3, 0.15, 0.075] ∧
    Config.TAMICES_MM = [40, 25, 20, 12.5, 10, 5, 2.36, 1.18, 0.6, 0.315, 0.16, 0.08] ∧
    Config.TAMICES_MM.length = 12 ∧
    (∀ (pp : List (String × ℚ)) (gg : List (String × List ℚ)),
      (FauryJoisel.calcular_granulometria_mezcla pp gg).length =
        Config.TAMICES_MM.length) ∧
    (∀ m : List ℚ, (FauryJoisel.calcular_banda_trabajo m).length =
      Config.TAMICES_ASTM.length) ∧
    Config.TAMICES_ASTM.length = 12 := by
  refine ⟨rfl, fun tmn => rfl, rfl, rfl, by simp [Config.TAMICES_MM], ?_, ?_, by
    simp [Config.TAMICES_ASTM]⟩
  · intro pp gg
    simp [FauryJoisel.calcular_granulometria_mezcla]
  · intro m
    simp [FauryJoisel.calcular_banda_trabajo]

/-! ## C4: blending with zero-sum proportions does not fail -/

/-- C4 counterexample: `calcular_mezcla_granulometrica` does not fail when
the proportions sum to 0 — it silently falls back to equal fractions and
returns a blended curve ([75, 0] here), not an error and not the empty
result. -/
theorem mezcla_granulometrica_suma_cero_no_falla :
    Power45.calcular_mezcla_granulometrica [0, 0] [[100, 0], [50, 0]] = [75, 0] ∧
    Power45.calcular_mezcla_granulometrica [0, 0] [[100, 0], [50, 0]] ≠ [] := by
  have h : Power45.calcular_mezcla_granulometrica [0, 0] [[100, 0], [50, 0]] = [75, 0] := by
    have h1 : pyRoundN 75 2 = 75 := by norm_num [pyRoundN, pyRoundInt]
    have h2 : pyRoundN 0 2 = 0 := by norm_num [pyRoundN, pyRoundInt]
    norm_num [Power45.calcular_mezcla_granulometrica, Power45.aporte, List.range_succ,
      List.replicate, List.zipWith]
    norm_num [h1, h2]
    rintro (hc | hc) <;> simp at hc
  exact ⟨h, by rw [h]; simp⟩

/-! ## C3: exposure class only affects the durability references -/

/-- C3: two designs differing only in the exposure class agree on every
field of the result except `referencias_durabilidad` (compared after
erasing that field with `stripRef`), and the cement content of any design
is exactly `round(fd_kgcm2 * 0.95 / 5) * 5` — the exposure class's
minimum-cement requirement is never used to clamp it. -/
theorem disenar_ignora_exposicion (fc s frac : ℚ) (cons : String) (tmn dc : ℚ)
    (aridos : List FauryJoisel.Arido) (airep : ℚ) (e1 e2 : String)
    (adcfg : List FauryJoisel.AditivoConfig) (pp : Option (List ℚ))
    (mac mair : Option ℚ) :
    (FauryJoisel.disenar_mezcla_faury fc s frac cons tmn dc aridos airep e1
      adcfg pp mac mair).map FauryJoisel.stripRef =
    (FauryJoisel.disenar_mezcla_faury fc s frac cons tmn dc aridos airep e2
      adcfg pp mac mair).map FauryJoisel.stripRef ∧
    (FauryJoisel.disenar_mezcla_faury fc s frac cons tmn dc aridos airep e1
      adcfg pp mac mair).map (fun r => r.cemento_cantidad) =
    (FauryJoisel.disenar_mezcla_faury fc s frac cons tmn dc aridos airep e1
      adcfg pp mac mair).map
        (fun r => (pyRoundInt (r.fd_kgcm2 * 0.95 / 5) : ℚ) * 5) := by
  constructor
  · simp only [FauryJoisel.disenar_mezcla_faury]
    refine except_map_bind_congr _ _ _ _ _ (fun adRes => ?_)
    refine except_map_bind_congr _ _ _ _ _ (fun v1 => ?_)
    refine except_map_bind_congr _ _ _ _ _ (fun vcl => ?_)
    refine except_map_bind_congr _ _ _ _ _ (fun cvol => ?_)
    refine except_map_bind_congr _ _ _ _ _ (fun pvol => ?_)
    rfl
  · simp only [FauryJoisel.disenar_mezcla_faury]
    refine except_map_bind_congr _ _ _ _ _ (fun adRes => ?_)
    refine except_map_bind_congr _ _ _ _ _ (fun v1 => ?_)
    refine except_map_bind_congr _ _ _ _ _ (fun vcl => ?_)
    refine except_map_bind_congr _ _ _ _ _ (fun cvol => ?_)
    refine except_map_bind_congr _ _ _ _ _ (fun pvol => ?_)
    rfl

/-! ## C9: retained-from-passing round trip -/

theorem retenido_roundtrip_aux (ps : List ℚ) : ∀ (prev : ℚ),
    List.Chain (fun a b => b ≤ a) prev ps →
    Power45.reconstruir_pasa_aux prev (Power45.calcular_retenido_aux prev ps) = ps := by
  induction ps with
  | nil => intro prev _; rfl
  | cons p ps ih =>
    intro prev h
    rw [List.chain_cons] at h
    obtain ⟨hle, hch⟩ := h
    unfold Power45.calcular_retenido_aux Power45.reconstruir_pasa_aux
    have hmax : max 0 (prev - p) = prev - p := max_eq_right (by linarith)
    rw [hmax]
    have hpp : prev - (prev - p) = p := by ring
    rw [hpp]
    rw [ih p hch]

/-- C9: for a monotone non-increasing percent-passing list (starting at or
below 100, phrased as a descending chain from 100), converting to retained
(`calcular_retenido`) and reconstructing by cumulative subtraction from 100
recovers the original list exactly. -/
theorem retenido_ida_y_vuelta (pasa : List ℚ)
    (h : List.Chain (fun a b => b ≤ a) 100 pasa) :
    Power45.reconstruir_pasa (Power45.calcular_retenido pasa) = pasa :=
  retenido_roundtrip_aux pasa 100 h

/-- Witness for C9 at the concrete curve [100, 80, 50, 10]. -/
theorem retenido_ida_y_vuelta_witness :
    List.Chain (fun a b => b ≤ a) (100 : ℚ) [100, 80, 50, 10] ∧
    Power45.reconstruir_pasa (Power45.calcular_retenido [100, 80, 50, 10]) =
      [100, 80, 50, 10] := by
  have hch : List.Chain (fun a b => b ≤ a) (100 : ℚ) [100, 80, 50, 10] := by
    norm_num [List.chain_cons]
  exact ⟨hch, retenido_ida_y_vuelta [100, 80, 50, 10] hch⟩

/-! ## C1 / C5: the ideal Power-45 curve -/

theorem list_getD_map (f : ℝ → ℝ) (l : List ℝ) (i : ℕ) (h : i < l.length) :
    (l.map f).getD i 0 = f (l.getD i 0) := by
  induction l generalizing i with
  | nil => simp at h
  | cons a l ih =>
    cases i with
    | zero => simp
    | succ n =>
      simp only [List.map_cons, List.getD_cons_succ]
      exact ih n (by simpa using h)

theorem valor_power45_lt_valor_power45 :
    Power45.calcular_valor_power45 0.075 < Power45.calcular_valor_power45 25 := by
  unfold Power45.calcular_valor_power45
  rw [if_neg (by norm_num), if_neg (by norm_num)]
  exact Real.rpow_lt_rpow (by norm_num) (by norm_num) (by norm_num)

theorem curva_ideal_25_en_0075 :
    (Power45.generar_curva_ideal_power45 25 none).2.getD 12 0 = 0 := by
  have hpos : (0:ℝ) <
      Power45.calcular_valor_power45 25 - Power45.calcular_valor_power45 0.075 := by
    have := valor_power45_lt_valor_power45
    linarith
  simp only [Power45.generar_curva_ideal_power45, Power45.TAMICES_POWER45, Option.getD,
    List.getLast?_cons_cons, List.getLast?_singleton, List.map_cons, List.map_nil,
    List.getD_cons_succ, List.getD_cons_zero]
  rw [if_neg (by norm_num), if_pos hpos]
  simp

/-- C1 counterexample: with the default sieves and `tmn = 25`, the ideal
value at the 0.075 mm sieve (index 12) is exactly 0 — not strictly between
0 and 100 as the claimed formula `100 * d^0.45 / tmn^0.45` would give. -/
theorem curva_ideal_power45_contraejemplo :
    (Power45.generar_curva_ideal_power45 25 none).2.getD 12 0 = 0 ∧
    ¬(0 < (Power45.generar_curva_ideal_power45 25 none).2.getD 12 0 ∧
      (Power45.generar_curva_ideal_power45 25 none).2.getD 12 0 < 100) := by
  refine ⟨curva_ideal_25_en_0075, ?_⟩
  rw [curva_ideal_25_en_0075]
  norm_num

/-- C1 amended: the generated ideal value is 100 when `d ≥ tmn`, and when
`d < tmn` it is the min-shifted normalization
`100 * (d^0.45 - dmin^0.45) / (tmn^0.45 - dmin^0.45)` clamped to [0, 100]
(with `dmin` the last sieve of the list, and the constant 50 when the
normalizing denominator is not positive) — not `100 * d^0.45 / tmn^0.45`.
For `tmn = 25` with the default sieves the value at 25 mm and at 50 mm is
exactly 100, and at 0.075 mm it is exactly 0. -/
theorem curva_ideal_power45_caracterizacion :
    (∀ (tmn : ℝ) (ts : List ℝ) (i : ℕ) (dlast : ℝ),
      ts.getLast? = some dlast → i < ts.length →
      (Power45.generar_curva_ideal_power45 tmn (some ts)).2.getD i 0 =
        (if ts.getD i 0 ≥ tmn then 100
         else if 0 < Power45.calcular_valor_power45 tmn -
             Power45.calcular_valor_power45 dlast
         then max 0 (min 100 ((Power45.calcular_valor_power45 (ts.getD i 0) -
             Power45.calcular_valor_power45 dlast) /
             (Power45.calcular_valor_power45 tmn -
              Power45.calcular_valor_power45 dlast) * 100))
         else 50)) ∧
    (Power45.generar_curva_ideal_power45 25 none).2.getD 2 0 = 100 ∧
    (Power45.generar_curva_ideal_power45 25 none).2.getD 0 0 = 100 ∧
    (Power45.generar_curva_ideal_power45 25 none).2.getD 12 0 = 0 := by
  refine ⟨?_, ?_, ?_, curva_ideal_25_en_0075⟩
  · intro tmn ts i dlast hlast hi
    simp only [Power45.generar_curva_ideal_power45, Option.getD, hlast]
    rw [list_getD_map _ _ _ hi]
  · simp only [Power45.generar_curva_ideal_power45, Power45.TAMICES_POWER45, Option.getD,
      List.map_cons, List.getD_cons_succ, List.getD_cons_zero]
    rw [if_pos (by norm_num)]
  · simp only [Power45.generar_curva_ideal_power45, Power45.TAMICES_POWER45, Option.getD,
      List.map_cons, List.getD_cons_zero]
    rw [if_pos (by norm_num)]

/-- Witness for C1's general formula, at `tmn = 25`, sieves [50, 25, 0.075],
index 0. -/
theorem curva_ideal_power45_caracterizacion_witness :
    ([(50:ℝ), 25, 0.075].getLast? = some 0.075) ∧
    (0 < [(50:ℝ), 25, 0.075].length) ∧
    (Power45.generar_curva_ideal_power45 25 (some [50, 25, 0.075])).2.getD 0 0 =
      (if [(50:ℝ), 25, 0.075].getD 0 0 ≥ 25 then 100
       else if 0 < Power45.calcular_valor_power45 25 - Power45.calcular_valor_power45 0.075
       then max 0 (min 100 ((Power45.calcular_valor_power45 ([(50:ℝ), 25, 0.075].getD 0 0) -
           Power45.calcular_valor_power45 0.075) /
           (Power45.calcular_valor_power45 25 - Power45.calcular_valor_power45 0.075) * 100))
       else 50) :=
  ⟨rfl, by norm_num,
    curva_ideal_power45_caracterizacion.1 25 [50, 25, 0.075] 0 0.075 rfl (by norm_num)⟩

/-- C5 counterexample: `generar_curva_ideal_power45` does not fail for
`tmn = 0` — every default sieve satisfies `d ≥ tmn`, so it silently
returns the all-100 curve. -/
theorem curva_ideal_tmn_cero_no_falla :
    (Power45.generar_curva_ideal_power45 0 none).2 = List.replicate 13 (100 : ℝ) := by
  simp only [Power45.generar_curva_ideal_power45, Power45.TAMICES_POWER45, Option.getD]
  norm_num [List.replicate]

/-- C5 amended: for every `tmn ≤ 0` the function raises no error at all; it
returns the 13-sieve curve with the value 100 at every sieve, because every
positive sieve size satisfies `d ≥ tmn`. -/
theorem curva_ideal_tmn_no_positivo (tmn : ℝ) (h : tmn ≤ 0) :
    (Power45.generar_curva_ideal_power45 tmn none).2 = List.replicate 13 (100 : ℝ) := by
  have h1 : tmn ≤ 50 := by linarith
  have h2 : tmn ≤ 37.5 := by linarith
  have h3 : tmn ≤ 25 := by linarith
  have h4 : tmn ≤ 19 := by linarith
  have h5 : tmn ≤ 12.5 := by linarith
  have h6 : tmn ≤ 9.5 := by linarith
  have h7 : tmn ≤ 4.75 := by linarith
  have h8 : tmn ≤ 2.36 := by linarith
  have h9 : tmn ≤ 1.18 := by linarith
  have h10 : tmn ≤ 0.6 := by linarith
  have h11 : tmn ≤ 0.3 := by linarith
  have h12 : tmn ≤ 0.15 := by linarith
  have h13 : tmn ≤ 0.075 := by linarith
  simp only [Power45.generar_curva_ideal_power45, Power45.TAMICES_POWER45, Option.getD]
  simp [List.replicate, ge_iff_le, h1, h2, h3, h4, h5, h6, h7, h8, h9, h10, h11, h12, h13]

/-- Witness for C5's amended statement at `tmn = 0`. -/
theorem curva_ideal_tmn_no_positivo_witness :
    ((0:ℝ) ≤ 0) ∧
    (Power45.generar_curva_ideal_power45 0 none).2 = List.replicate 13 (100 : ℝ) :=
  ⟨le_refl 0, curva_ideal_tmn_no_positivo 0 (le_refl 0)⟩

/-! ## C4 (amended): the blend formula -/

theorem aporte_eq_getD (i : ℕ) (c : ℚ) (g : List ℚ) (h : i < g.length) :
    Power45.aporte i c g = c * g.getD i 0 := by
  unfold Power45.aporte
  rw [List.get?_eq_getElem?, List.getD_eq_getElem?_getD, List.getElem?_eq_getElem h]
  rfl

theorem mezcla_sum_pos (total : ℚ) (i m : ℕ) (hi : i < m) :
    ∀ (ps : List ℚ) (gs : List (List ℚ)), (∀ g ∈ gs, g.length = m) →
    (((ps.map (fun p => p / total)).zip gs).map (fun fg =>
      Power45.aporte i fg.1 fg.2)).sum =
    ((ps.zip gs).map (fun pg => pg.1 / total * pg.2.getD i 0)).sum := by
  intro ps
  induction ps with
  | nil => intro gs _; simp
  | cons p ps ih =>
    intro gs hgm
    cases gs with
    | nil => simp
    | cons g gs =>
      have hg : i < g.length := by rw [hgm g (by simp)]; exact hi
      simp only [List.map_cons, List.zip_cons_cons, List.sum_cons]
      rw [aporte_eq_getD i _ g hg, ih gs (fun g' hg' => hgm g' (by simp [hg']))]

theorem mezcla_sum_replicate (c : ℚ) (i m : ℕ) (hi : i < m) :
    ∀ (ps : List ℚ) (gs : List (List ℚ)), (∀ g ∈ gs, g.length = m) →
    (((List.replicate ps.length c).zip gs).map (fun fg =>
      Power45.aporte i fg.1 fg.2)).sum =
    ((ps.zip gs).map (fun pg => c * pg.2.getD i 0)).sum := by
  intro ps
  induction ps with
  | nil => intro gs _; simp
  | cons p ps ih =>
    intro gs hgm
    cases gs with
    | nil => simp
    | cons g gs =>
      have hg : i < g.length := by rw [hgm g (by simp)]; exact hi
      simp only [List.length_cons, List.replicate_succ, List.map_cons,
        List.zip_cons_cons, List.sum_cons]
      rw [aporte_eq_getD i _ g hg, ih gs (fun g' hg' => hgm g' (by simp [hg']))]

/-- C4 amended: on a non-empty proportion list with *positive* sum and
matching gradations, the blend at sieve `i` is the rounded weighted sum
`Σ_j (p_j / Σp) * g_j[i]`; but when the proportions sum to 0, the function
does not fail — it uses equal fractions `1/n` instead. -/
theorem mezcla_granulometrica_formula (props : List ℚ) (grans : List (List ℚ))
    (m : ℕ) (hp : props ≠ []) (hg : grans ≠ []) (hm : ∀ g ∈ grans, g.length = m) :
    (0 < props.sum →
      Power45.calcular_mezcla_granulometrica props grans =
        (List.range m).map (fun i =>
          pyRoundN (((props.zip grans).map
            (fun pg => pg.1 / props.sum * pg.2.getD i 0)).sum) 2)) ∧
    (props.sum = 0 →
      Power45.calcular_mezcla_granulometrica props grans =
        (List.range m).map (fun i =>
          pyRoundN (((props.zip grans).map
            (fun pg => 1 / (props.length : ℚ) * pg.2.getD i 0)).sum) 2)) := by
  have hhead : ((grans.head?.map List.length).getD 0) = m := by
    cases grans with
    | nil => exact absurd rfl hg
    | cons g0 rest => simpa using hm g0 (by simp)
  constructor
  · intro hsum
    unfold Power45.calcular_mezcla_granulometrica
    rw [if_neg (by simp [hp, hg])]
    dsimp only
    rw [if_pos hsum, hhead]
    refine List.map_congr_left ?_
    intro i hi
    rw [List.mem_range] at hi
    congr 1
    exact mezcla_sum_pos props.sum i m hi props grans hm
  · intro hsum
    unfold Power45.calcular_mezcla_granulometrica
    rw [if_neg (by simp [hp, hg])]
    dsimp only
    rw [if_neg (by rw [hsum]; norm_num), hhead]
    refine List.map_congr_left ?_
    intro i hi
    rw [List.mem_range] at hi
    congr 1
    exact mezcla_sum_replicate (1 / (props.length : ℚ)) i m hi props grans hm

/-- Witness for C4's amended formula at proportions [1, 3] and gradations
[[100, 40], [60, 20]]. -/
theorem mezcla_granulometrica_formula_witness :
    (([1, 3] : List ℚ) ≠ []) ∧ (([[100, 40], [60, 20]] : List (List ℚ)) ≠ []) ∧
    (∀ g ∈ ([[100, 40], [60, 20]] : List (List ℚ)), g.length = 2) ∧
    (0 < ([1, 3] : List ℚ).sum) ∧
    Power45.calcular_mezcla_granulometrica [1, 3] [[100, 40], [60, 20]] =
      (List.range 2).map (fun i =>
        pyRoundN (((([1, 3] : List ℚ).zip ([[100, 40], [60, 20]] : List (List ℚ))).map
          (fun pg => pg.1 / ([1, 3] : List ℚ).sum * pg.2.getD i 0)).sum) 2) := by
  have hm : ∀ g ∈ ([[100, 40], [60, 20]] : List (List ℚ)), g.length = 2 := by
    intro g hg
    fin_cases hg <;> rfl
  refine ⟨by simp, by simp, hm, by norm_num, ?_⟩
  exact (mezcla_granulometrica_formula [1, 3] [[100, 40], [60, 20]] 2
    (by simp) (by simp) hm).1 (by norm_num)
